import Mathlib

/-!
Verification of the real-time synchronization client
(`src/frontend/src/services/websocket.js`, class `WebSocketService`).

The client's mutable fields become a Lean structure `WS.WSState`; each
method becomes a pure function from state to state.  External effects
(console logging, snackbar notifications, handler callbacks) are recorded
as values of the `WS.Effect` type.  The transport is modelled by a
predicate `ok : Envelope → Bool` saying whether `socket.send` of a frame
succeeds or throws, and by the counter `opens`, which counts physical
`new WebSocket(...)` constructions.  Application handler callbacks are
identified by natural numbers; a predicate `tf : Nat → Bool` says which
handlers throw when invoked.
-/

set_option autoImplicit false

namespace WS

/-- An outbound application message as passed to `send` (a `type` field and
an opaque payload; the payload stands for the remaining spread fields). -/
structure OutMsg where
  type : String
  payload : Nat
deriving DecidableEq, Repr

/-- A wire frame actually handed to `socket.send`: the caller's message
spread together with the stamped correlation `id` (from `uuidv4()`,
modelled by a counter) and `timestamp` (from `new Date()`, modelled by a
clock value). -/
structure Envelope where
  id : Nat
  timestamp : Nat
  msg : OutMsg
deriving DecidableEq, Repr

/-- The payload (`message.data`) of an inbound message: absent, an opaque
value, or a sync object with `collection` / `operation` / `data` fields. -/
inductive MsgData where
  | absent : MsgData
  | raw : Nat → MsgData
  | sync : String → String → Nat → MsgData
deriving DecidableEq, Repr

/-- An inbound message as produced by `JSON.parse` in the `onmessage`
handler. -/
structure InMsg where
  type : String
  error : Option String
  data : MsgData
deriving DecidableEq, Repr

/-- The argument a subscriber callback is invoked with: either the raw
`message.data` (generic dispatch) or the `{operation, data}` object built
by `handleSync`. -/
inductive Arg where
  | dat : MsgData → Arg
  | syncEvt : String → Nat → Arg
deriving DecidableEq, Repr

/-- Observable side effects of the client, recorded in order. -/
inductive Effect where
  | invoke : Nat → Arg → Effect
  | handlerLog : Nat → Effect
  | snackbar : String → String → Option Nat → Effect
  | logError : String → Effect
  | logWarn : String → Effect
  | logInfo : String → Effect
  | notification : MsgData → Effect
deriving DecidableEq, Repr

/-- The subscription registry `this.subscribers`: a `Map` from event key to
the ordered list of handler callbacks registered under it. -/
abbrev Registry := List (String × List Nat)

/-- The `this.subscribers.get(key) || []` read. -/
def getSubscribers (reg : Registry) (k : String) : List Nat :=
  match reg.find? (fun p => p.1 == k) with
  | some p => p.2
  | none => []

/-- The `subscribe(event, callback)` method: create the key's list if
absent, then push the callback. -/
def subscribe (reg : Registry) (event : String) (h : Nat) : Registry :=
  if (reg.find? (fun p => p.1 == event)).isSome then
    reg.map (fun p => if p.1 == event then (p.1, p.2 ++ [h]) else p)
  else
    reg ++ [(event, [h])]

/-- The mutable fields of the `WebSocketService` singleton.  `socket` and
`connectionPromise` hold the identity (creation index) of the current
WebSocket / in-flight promise; `opens` counts physical transport opens
(`new WebSocket(...)`); `transmitted` records the frames `socket.send`
accepted, in order; `nextId` and `now` model the uuid generator and the
clock.  Timer handles (`pingInterval`) and the `connectionResolvers`
array are not load-bearing for the claims and are not tracked. -/
structure WSState where
  connected : Bool
  reconnectAttempts : Nat
  maxReconnectAttempts : Nat
  messageQueue : List OutMsg
  subscribers : Registry
  socket : Option Nat
  connectionPromise : Option Nat
  lastUrl : Option String
  opens : Nat
  nextId : Nat
  now : Nat
  transmitted : List Envelope
deriving DecidableEq, Repr

/-- The constructor's initial field values (`maxReconnectAttempts = 5`). -/
def initialState : WSState :=
  { connected := false
    reconnectAttempts := 0
    maxReconnectAttempts := 5
    messageQueue := []
    subscribers := []
    socket := none
    connectionPromise := none
    lastUrl := none
    opens := 0
    nextId := 0
    now := 0
    transmitted := [] }

/-- Token appending of `connect`: the current token (if any) is added to
the url as a `token` query parameter. -/
def appendToken (url : String) (token : Option String) : String :=
  match token with
  | some t => url ++ "?token=" ++ t
  | none => url

/-- The `send(message)` method.  If not connected, push the raw message on
`messageQueue` and return `false`.  Otherwise build the frame (stamping
`id` from `uuidv4()` and `timestamp`) and try `socket.send`: on success
return `true`; if the transport throws (`ok e = false`), the `catch`
logs and returns `false` — the message is neither transmitted nor queued. -/
def send (ok : Envelope → Bool) (s : WSState) (m : OutMsg) : WSState × Bool :=
  if !s.connected then
    ({ s with messageQueue := s.messageQueue ++ [m] }, false)
  else
    let e : Envelope := { id := s.nextId, timestamp := s.now, msg := m }
    let s1 := { s with nextId := s.nextId + 1 }
    if ok e then
      ({ s1 with transmitted := s1.transmitted ++ [e] }, true)
    else
      (s1, false)

/-- One pass of the `processMessageQueue` while loop, made structural on a
fuel argument.  While connected, each iteration shifts exactly one message
off the queue and `send` never enqueues (its not-connected branch is
unreachable), so the initial queue length bounds the iteration count and
`processMessageQueue` below supplies it as fuel. -/
def pmqAux (ok : Envelope → Bool) : Nat → WSState → WSState
  | 0, s => s
  | fuel + 1, s =>
    match s.messageQueue with
    | [] => s
    | m :: rest =>
      if s.connected then
        pmqAux ok fuel ((send ok { s with messageQueue := rest } m).1)
      else s

/-- The `processMessageQueue()` method:
`while (messageQueue.length > 0 && connected) send(messageQueue.shift())`. -/
def processMessageQueue (ok : Envelope → Bool) (s : WSState) : WSState :=
  pmqAux ok s.messageQueue.length s

/-- The `socket.onopen` handler: set `connected`, reset
`reconnectAttempts`, start keepalive (timer not tracked), drain the queue,
resolve waiting callers (promise resolution not tracked). -/
def onOpen (ok : Envelope → Bool) (s : WSState) : WSState :=
  processMessageQueue ok { s with connected := true, reconnectAttempts := 0 }

/-- The `handleReconnect()` method.  Returns the new state, the logging /
notification effects, and the scheduled backoff delay (`none` when no
retry is scheduled).  At the ceiling it emits the durable snackbar
(`autoHideDuration: 10000`) and schedules nothing; otherwise it increments
`reconnectAttempts` and schedules a retry after
`min(1000 * 2 ^ reconnectAttempts, 30000)` ms. -/
def handleReconnect (s : WSState) : WSState × List Effect × Option Nat :=
  if s.reconnectAttempts ≥ s.maxReconnectAttempts then
    (s,
     [Effect.logError "Max reconnection attempts reached",
      Effect.snackbar
        "Disconnected from real-time updates. Please refresh the page to reconnect."
        "error" (some 10000)],
     none)
  else
    let s1 := { s with reconnectAttempts := s.reconnectAttempts + 1 }
    let delay := min (1000 * 2 ^ s1.reconnectAttempts) 30000
    (s1, [Effect.logInfo "Attempting to reconnect"], some delay)

/-- The `connect(url)` method.  If `connectionPromise` is non-null it is
returned unchanged and no transport is opened (the returned `Bool` is
whether a `new WebSocket(...)` construction happened).  Otherwise the
promise executor runs synchronously: append the token, construct the
socket, record `lastUrl`, and install the event handlers. -/
def connect (s : WSState) (url : String) (token : Option String) : WSState × Bool :=
  if s.connectionPromise.isSome then
    (s, false)
  else
    let wsUrl := appendToken url token
    ({ s with socket := some s.opens
              lastUrl := some wsUrl
              connectionPromise := some s.opens
              opens := s.opens + 1 },
     true)

/-- The `socket.onclose` handler: clear `connected`, stop keepalive, and
for any close code other than 1000 run `handleReconnect` (whose effects
and scheduled delay are passed through). -/
def onClose (s : WSState) (code : Nat) : WSState × List Effect × Option Nat :=
  let s1 := { s with connected := false }
  if code ≠ 1000 then handleReconnect s1 else (s1, [], none)

/-- The body of the `setTimeout` callback scheduled by `handleReconnect`:
if still not connected, call `connect` with `lastUrl` (falling back to the
configured updates URL).  The returned `Bool` is whether a new transport
open happened. -/
def reconnectTimerFire (s : WSState) (fallbackUrl : String) (token : Option String) :
    WSState × Bool :=
  if s.connected then (s, false)
  else connect s (s.lastUrl.getD fallbackUrl) token

/-- The `disconnect()` method: close with the normal code, clear the
socket, `connected`, keepalive and — unlike `onclose` — the
`connectionPromise`. -/
def disconnect (s : WSState) : WSState :=
  if s.socket.isSome then
    { s with socket := none, connected := false, connectionPromise := none }
  else s

/-- The dispatch loop `callbacks.forEach(cb => { try { cb(a) } catch {
log } })`: every callback in the list is invoked with the same argument,
in list (registration) order; a throwing callback (`tf c = true`) only
adds a console log, it does not stop the loop. -/
def invokeAll (tf : Nat → Bool) (a : Arg) : List Nat → List Effect
  | [] => []
  | c :: rest =>
    Effect.invoke c a :: ((if tf c then [Effect.handlerLog c] else []) ++ invokeAll tf a rest)

/-- The `handleSync(message)` method: destructure `{collection, operation,
data}` from `message.data`, and for `create` / `update` / `delete` notify
the subscribers registered under the composite key `sync:` ++ collection
with `{operation, data}`; any other operation only logs a warning. -/
def handleSync (tf : Nat → Bool) (reg : Registry) (m : InMsg) : List Effect :=
  match m.data with
  | MsgData.sync c op p =>
    if op = "create" ∨ op = "update" ∨ op = "delete" then
      invokeAll tf (Arg.syncEvt op p) (getSubscribers reg ("sync:" ++ c))
    else
      [Effect.logWarn ("Unknown sync operation: " ++ op)]
  | _ => [Effect.logWarn "Unknown sync operation: undefined"]

/-- The `handleMessage(message)` method.  `pong` is discarded; `error`
logs and shows a transient snackbar, then returns (before any subscriber
dispatch); `notification` goes to the built-in notification handler
(whose snackbar presentation is summarised by one `notification` effect);
`sync` goes to `handleSync`; every other type is dispatched to the
subscribers registered under `message.type`, each receiving
`message.data`.  The method assigns no field of the service, so the state
is returned unchanged. -/
def handleMessage (tf : Nat → Bool) (s : WSState) (m : InMsg) : WSState × List Effect :=
  if m.type = "pong" then (s, [])
  else if m.type = "error" then
    (s,
     [Effect.logError (m.error.getD "undefined"),
      Effect.snackbar (m.error.getD "An error occurred") "error" none])
  else if m.type = "notification" then (s, [Effect.notification m.data])
  else if m.type = "sync" then (s, handleSync tf s.subscribers m)
  else (s, invokeAll tf (Arg.dat m.data) (getSubscribers s.subscribers m.type))

/-- The handler invocations contained in an effect trace, in order. -/
def invocations (es : List Effect) : List (Nat × Arg) :=
  es.filterMap fun e =>
    match e with
    | Effect.invoke c a => some (c, a)
    | _ => none

/-- The spec's abstract connection-state view of the code's fields (the
source keeps `connected`, `reconnectAttempts` and `connectionPromise`
rather than an explicit state enum). -/
inductive ConnState where
  | Disconnected
  | Connecting
  | Connected
  | Reconnecting
  | Abandoned
deriving DecidableEq, Repr

/-- Abstraction map from the code's fields to the spec's connection
states, following the spec's data model: `Connected` iff the transport is
open, `Abandoned` once the attempt ceiling has been reached without a
successful connect, and `Disconnected` otherwise. -/
def specState (s : WSState) : ConnState :=
  if s.connected then ConnState.Connected
  else if s.reconnectAttempts ≥ s.maxReconnectAttempts then ConnState.Abandoned
  else ConnState.Disconnected

/-- Iterated `handleReconnect` state evolution (one application per
consecutive failed attempt). -/
def iterReconnect : Nat → WSState → WSState
  | 0, s => s
  | n + 1, s => iterReconnect n (handleReconnect s).1

/-- Specification of one full queue drain under transport predicate `ok`:
each queued message is stamped with successive ids and the current clock;
frames the transport accepts appear in order, frames it throws on are
dropped. -/
def drainModel (ok : Envelope → Bool) (nid now : Nat) : List OutMsg → List Envelope
  | [] => []
  | m :: rest =>
    let e : Envelope := { id := nid, timestamp := now, msg := m }
    (if ok e then [e] else []) ++ drainModel ok (nid + 1) now rest

/-- A sequence of `send` calls, threading the state. -/
def sendAll (ok : Envelope → Bool) (s : WSState) (msgs : List OutMsg) : WSState :=
  msgs.foldl (fun t m => (send ok t m).1) s

/-- Characterization of the queue-drain loop on a connected state: the
queue ends empty, the transmitted frames extend by exactly `drainModel`
over the old queue, and `reconnectAttempts` is untouched. -/
theorem pmqAux_drain (ok : Envelope → Bool) :
    ∀ (fuel : Nat) (s : WSState), s.connected = true → s.messageQueue.length ≤ fuel →
      (pmqAux ok fuel s).messageQueue = []
      ∧ (pmqAux ok fuel s).transmitted
          = s.transmitted ++ drainModel ok s.nextId s.now s.messageQueue
      ∧ (pmqAux ok fuel s).reconnectAttempts = s.reconnectAttempts := by
  intro fuel
  induction fuel with
  | zero =>
    intro s hc hl
    have hq : s.messageQueue = [] := List.eq_nil_of_length_eq_zero (Nat.le_zero.mp hl)
    simp [pmqAux, hq, drainModel]
  | succ n ih =>
    intro s hc hl
    match hq : s.messageQueue with
    | [] => simp [pmqAux, hq, drainModel]
    | m :: rest =>
      have hlen : rest.length ≤ n := by
        have := hl
        rw [hq] at this
        simpa using this
      have hstep : pmqAux ok (n + 1) s
          = pmqAux ok n ((send ok { s with messageQueue := rest } m).1) := by
        simp [pmqAux, hq, hc]
      by_cases hok : ok { id := s.nextId, timestamp := s.now, msg := m } = true
      · have hs2 : (send ok { s with messageQueue := rest } m).1
            = { s with messageQueue := rest, nextId := s.nextId + 1,
                       transmitted := s.transmitted
                         ++ [{ id := s.nextId, timestamp := s.now, msg := m }] } := by
          simp [send, hc, hok]
        obtain ⟨h1, h2, h3⟩ := ih ((send ok { s with messageQueue := rest } m).1)
          (by rw [hs2]; exact hc) (by rw [hs2]; exact hlen)
        refine ⟨?_, ?_, ?_⟩
        · rw [hstep]; exact h1
        · rw [hstep, h2, hs2]
          simp [drainModel, hok]
        · rw [hstep, h3, hs2]
      · have hs2 : (send ok { s with messageQueue := rest } m).1
            = { s with messageQueue := rest, nextId := s.nextId + 1 } := by
          simp [send, hc, hok]
        obtain ⟨h1, h2, h3⟩ := ih ((send ok { s with messageQueue := rest } m).1)
          (by rw [hs2]; exact hc) (by rw [hs2]; exact hlen)
        refine ⟨?_, ?_, ?_⟩
        · rw [hstep]; exact h1
        · rw [hstep, h2, hs2]
          simp [drainModel, hok]
        · rw [hstep, h3, hs2]

/-- The drain characterization restated for `processMessageQueue`. -/
theorem processMessageQueue_drain (ok : Envelope → Bool) (s : WSState)
    (hc : s.connected = true) :
    (processMessageQueue ok s).messageQueue = []
    ∧ (processMessageQueue ok s).transmitted
        = s.transmitted ++ drainModel ok s.nextId s.now s.messageQueue
    ∧ (processMessageQueue ok s).reconnectAttempts = s.reconnectAttempts :=
  pmqAux_drain ok s.messageQueue.length s hc (Nat.le_refl _)

/-- Under a transport that accepts every frame, the drained frames are the
queued messages themselves, in order. -/
theorem drainModel_map_of_ok (ok : Envelope → Bool) (hok : ∀ e, ok e = true) :
    ∀ (q : List OutMsg) (nid now : Nat),
      (drainModel ok nid now q).map Envelope.msg = q := by
  intro q
  induction q with
  | nil => intro nid now; simp [drainModel]
  | cons m rest ih => intro nid now; simp [drainModel, hok, ih]

/-- While disconnected, a sequence of `send` calls only appends the raw
messages to the tail of the queue, in call order. -/
theorem sendAll_disconnected (ok : Envelope → Bool) :
    ∀ (msgs : List OutMsg) (s : WSState), s.connected = false →
      sendAll ok s msgs = { s with messageQueue := s.messageQueue ++ msgs } := by
  intro msgs
  induction msgs with
  | nil => intro s hc; simp [sendAll]
  | cons m rest ih =>
    intro s hc
    have h1 : (send ok s m).1 = { s with messageQueue := s.messageQueue ++ [m] } := by
      simp [send, hc]
    have := ih { s with messageQueue := s.messageQueue ++ [m] } (by simpa using hc)
    simp only [sendAll, List.foldl_cons] at *
    rw [h1, this]
    simp

/-- Below the attempt ceiling, iterating `handleReconnect` only advances
the attempt counter. -/
theorem iterReconnect_under_ceiling :
    ∀ (k : Nat) (s : WSState), s.reconnectAttempts + k ≤ s.maxReconnectAttempts →
      iterReconnect k s = { s with reconnectAttempts := s.reconnectAttempts + k } := by
  intro k
  induction k with
  | zero => intro s h; simp [iterReconnect]
  | succ n ih =>
    intro s h
    have hlt : ¬ s.reconnectAttempts ≥ s.maxReconnectAttempts := by omega
    have h1 : (handleReconnect s).1
        = { s with reconnectAttempts := s.reconnectAttempts + 1 } := by
      simp [handleReconnect, hlt]
    rw [iterReconnect, h1, ih _ (by simp; omega)]
    simp
    omega

/-- At or above the attempt ceiling, `handleReconnect` is the identity on
the state, so iterating it stays put. -/
theorem iterReconnect_ceiling_fix (s : WSState)
    (h : s.reconnectAttempts ≥ s.maxReconnectAttempts) :
    ∀ n, iterReconnect n s = s := by
  intro n
  induction n with
  | zero => rfl
  | succ k ih =>
    rw [iterReconnect, show (handleReconnect s).1 = s by simp [handleReconnect, h]]
    exact ih

/-- The dispatch loop invokes every callback with the shared argument, in
registration order, whatever the set of throwing handlers is. -/
theorem invocations_invokeAll (tf : Nat → Bool) (a : Arg) :
    ∀ cbs : List Nat, invocations (invokeAll tf a cbs) = cbs.map (fun c => (c, a)) := by
  intro cbs
  induction cbs with
  | nil => simp [invokeAll, invocations]
  | cons c rest ih =>
    by_cases h : tf c <;>
      simp_all [invokeAll, invocations, List.filterMap_append]

/-- `handleMessage` assigns no field of the service state. -/
theorem handleMessage_state_eq (tf : Nat → Bool) (s : WSState) (m : InMsg) :
    (handleMessage tf s m).1 = s := by
  unfold handleMessage
  split_ifs <;> rfl

/-- Concrete fixtures used by the closed evaluation theorems below. -/
def msgA : OutMsg := { type := "threat", payload := 1 }

/-- A second concrete outbound message. -/
def msgB : OutMsg := { type := "alert", payload := 2 }

/-- A transport that accepts every frame. -/
def okAll : Envelope → Bool := fun _ => true

/-- A transport whose `send` throws on every frame. -/
def okNever : Envelope → Bool := fun _ => false

/-- A transport whose `send` throws exactly on frames carrying `msgA`. -/
def failOnA : Envelope → Bool := fun e => e.msg.payload != 1

/-- A connected service whose queue holds `msgA` then `msgB` (as left by
two `send` calls made while disconnected, at the moment `onopen` starts
the drain). -/
def drainState : WSState := { initialState with connected := true, messageQueue := [msgA, msgB] }

/-- A connected service with an empty queue. -/
def connState : WSState := { initialState with connected := true }

/-- The service after its first successful `connect` and `onopen`. -/
def c1Connected : WSState :=
  onOpen okAll (connect initialState "ws://example/ws/updates" (some "tok")).1

/-- The service, effects and scheduled backoff delay after the transport
then closes abnormally (code 1006). -/
def c1Closed : WSState × List Effect × Option Nat := onClose c1Connected 1006

/-- The result of the scheduled backoff timer firing while the service is
still disconnected: the state and whether a new transport open occurred. -/
def c1Retry : WSState × Bool :=
  reconnectTimerFire c1Closed.1 "ws://example/ws/updates" (some "tok")

/-- C1: after an abnormal close (code 1006) with `reconnectAttempts = 1 <
maxReconnectAttempts`, a 2000 ms retry is scheduled, but when the timer
fires while still disconnected the `connect()` call opens NO new
transport: `connectionPromise` was never cleared by the close handler, so
`connect` returns the stale settled promise (`opens` stays at 1 and the
promise identity is unchanged).  This contradicts the claim that the
retry initiates a new physical connection attempt. -/
theorem c1_retry_opens_no_transport :
    c1Closed.1.reconnectAttempts = 1
    ∧ c1Closed.1.reconnectAttempts < c1Closed.1.maxReconnectAttempts
    ∧ c1Closed.2.2 = some 2000
    ∧ c1Closed.1.connected = false
    ∧ c1Closed.1.connectionPromise = some 0
    ∧ c1Retry.2 = false
    ∧ c1Retry.1.opens = 1
    ∧ c1Retry.1.connectionPromise = some 0 := by
  decide

/-- C2 counterexample: with queue `[msgA, msgB]` and a transport that
throws exactly on `msgA`, the drain does NOT stop — `msgB` is transmitted
in the same drain — and nothing remains queued: `msgA` is neither in the
queue nor among the transmitted frames, i.e. it is lost, contrary to the
claim that the remainder stays queued and no queued message is lost. -/
theorem c2_failed_transmission_is_lost :
    (processMessageQueue failOnA drainState).messageQueue = []
    ∧ (processMessageQueue failOnA drainState).transmitted.map Envelope.msg = [msgB] := by
  decide

/-- C2 as amended: when transmission of a queued message throws during the
drain, the exception is caught inside `send` (which returns `false`); the
failed message has already been shifted off the queue and is dropped, and
the drain continues — after the drain the queue is empty and exactly the
frames the transport accepted were transmitted, in order (`drainModel`). -/
theorem c2_drain_continues_after_throw (ok : Envelope → Bool) (s : WSState)
    (hc : s.connected = true) :
    (processMessageQueue ok s).messageQueue = []
    ∧ (processMessageQueue ok s).transmitted
        = s.transmitted ++ drainModel ok s.nextId s.now s.messageQueue := by
  obtain ⟨h1, h2, _⟩ := processMessageQueue_drain ok s hc
  exact ⟨h1, h2⟩

/-- Witness for the amended C2 at the concrete drain of `[msgA, msgB]`
with a transport throwing on `msgA`. -/
theorem c2_drain_witness :
    (processMessageQueue failOnA drainState).messageQueue = []
    ∧ (processMessageQueue failOnA drainState).transmitted
        = drainState.transmitted
            ++ drainModel failOnA drainState.nextId drainState.now drainState.messageQueue :=
  c2_drain_continues_after_throw failOnA drainState rfl

/-- C4 counterexample: on a connected service whose transport throws,
`send` returns `false` while the message was NOT appended to the queue
(the queue stays empty) and nothing was transmitted — so `false` does not
mean "queued", and a connected `send` does not always return `true`,
contrary to the claim. -/
theorem c4_send_false_without_queueing :
    (send okNever connState msgA).2 = false
    ∧ (send okNever connState msgA).1.messageQueue = []
    ∧ (send okNever connState msgA).1.transmitted = [] := by
  decide

/-- C4 as amended: while connected, `send` stamps `id` and `timestamp` and
attempts immediate transmission; it returns `true` iff the transmission
does not throw, it never touches the queue, on success exactly the
stamped frame is transmitted, and on a throw nothing is transmitted (the
message is dropped).  Hence `false` means either "queued" (when
disconnected) or this third, dropped outcome. -/
theorem c4_send_outcomes (ok : Envelope → Bool) (s : WSState) (m : OutMsg)
    (hc : s.connected = true) :
    ((send ok s m).2 = ok { id := s.nextId, timestamp := s.now, msg := m })
    ∧ (send ok s m).1.messageQueue = s.messageQueue
    ∧ (ok { id := s.nextId, timestamp := s.now, msg := m } = true →
        (send ok s m).1.transmitted
          = s.transmitted ++ [{ id := s.nextId, timestamp := s.now, msg := m }])
    ∧ (ok { id := s.nextId, timestamp := s.now, msg := m } = false →
        (send ok s m).1.transmitted = s.transmitted) := by
  cases hok : ok { id := s.nextId, timestamp := s.now, msg := m } <;>
    simp [send, hc, hok]

/-- Witness for the amended C4 on a connected service with a throwing
transport: `send` returns `false`, the queue stays empty, nothing is
transmitted. -/
theorem c4_send_witness :
    (send okNever connState msgA).2 = false
    ∧ (send okNever connState msgA).1.messageQueue = []
    ∧ (send okNever connState msgA).1.transmitted = [] := by
  obtain ⟨h1, h2, _, h4⟩ := c4_send_outcomes okNever connState msgA rfl
  exact ⟨h1.trans rfl, h2.trans rfl, (h4 rfl).trans rfl⟩

/-- C5: any sequence of `send` calls issued while disconnected appends the
messages to the queue in call order, and once the connection opens (under
a transport that accepts every frame) the transport receives exactly
those messages, each exactly once, in the exact order the `send` calls
were made, leaving the queue empty. -/
theorem c5_fifo_drain (ok : Envelope → Bool) (msgs : List OutMsg) (s : WSState)
    (hc : s.connected = false) (hq : s.messageQueue = []) (ht : s.transmitted = [])
    (hok : ∀ e, ok e = true) :
    (onOpen ok (sendAll ok s msgs)).transmitted.map Envelope.msg = msgs
    ∧ (onOpen ok (sendAll ok s msgs)).messageQueue = [] := by
  have hsa : sendAll ok s msgs = { s with messageQueue := s.messageQueue ++ msgs } :=
    sendAll_disconnected ok msgs s hc
  rw [hq] at hsa
  unfold onOpen
  rw [hsa]
  obtain ⟨h1, h2, _⟩ := processMessageQueue_drain ok
    { s with connected := true, reconnectAttempts := 0, messageQueue := [] ++ msgs } rfl
  constructor
  · rw [show ({ s with connected := true, reconnectAttempts := 0, messageQueue := [] ++ msgs } : WSState)
        = { ({ s with messageQueue := [] ++ msgs } : WSState) with
              connected := true, reconnectAttempts := 0 } from rfl] at h2
    rw [h2]
    simp [ht, drainModel_map_of_ok ok hok]
  · exact h1

/-- Witness for C5: two messages sent while disconnected arrive in order
once connected. -/
theorem c5_fifo_witness :
    (onOpen okAll (sendAll okAll initialState [msgA, msgB])).transmitted.map Envelope.msg
        = [msgA, msgB]
    ∧ (onOpen okAll (sendAll okAll initialState [msgA, msgB])).messageQueue = [] :=
  c5_fifo_drain okAll [msgA, msgB] initialState rfl rfl rfl (fun _ => rfl)

/-- A registry with one handler (7) registered under the key `error`. -/
def errReg : Registry := [("error", [7])]

/-- A service state carrying `errReg`. -/
def errState : WSState := { initialState with subscribers := errReg }

/-- An inbound `error` envelope. -/
def errMsg : InMsg := { type := "error", error := some "boom", data := MsgData.absent }

/-- C3 counterexample: an inbound `error` envelope, with a handler
registered under the subscription key `error`, produces NO handler
invocation at all — `handleMessage` returns right after the built-in
error handler, so the registered subscriber never receives the message,
contrary to the claim that it is routed to both. -/
theorem c3_error_subscriber_not_invoked :
    getSubscribers errState.subscribers "error" = [7]
    ∧ invocations (handleMessage (fun _ => false) errState errMsg).2 = [] := by
  decide

/-- C3 as amended: an inbound envelope with `type = error` is routed only
to the built-in error handler (a console error and a transient error
snackbar); `handleMessage` returns before the subscriber dispatch, so the
handlers registered under the key `error` are not invoked. -/
theorem c3_error_routed_to_builtin_only (tf : Nat → Bool) (s : WSState) (m : InMsg)
    (he : m.type = "error") :
    handleMessage tf s m
      = (s,
         [Effect.logError (m.error.getD "undefined"),
          Effect.snackbar (m.error.getD "An error occurred") "error" none]) := by
  simp [handleMessage, he]

/-- Witness for the amended C3 at the concrete `error` envelope. -/
theorem c3_error_witness :
    handleMessage (fun _ => false) errState errMsg
      = (errState,
         [Effect.logError "boom", Effect.snackbar "boom" "error" none]) :=
  (c3_error_routed_to_builtin_only (fun _ => false) errState errMsg rfl).trans (by decide)

/-- C6: once `reconnectAttempts` has reached the ceiling and the service
is not connected, `handleReconnect` schedules no retry, leaves the state
unchanged (so iterating it after any number of further failures still
schedules nothing), emits the durable (`autoHideDuration: 10000`)
user-visible error notification instructing a reload, and the spec-level
state of the service is `Abandoned`. -/
theorem c6_ceiling_abandons (s : WSState) (hc : s.connected = false)
    (hmax : s.reconnectAttempts ≥ s.maxReconnectAttempts) :
    handleReconnect s
      = (s,
         [Effect.logError "Max reconnection attempts reached",
          Effect.snackbar
            "Disconnected from real-time updates. Please refresh the page to reconnect."
            "error" (some 10000)],
         none)
    ∧ specState s = ConnState.Abandoned
    ∧ (∀ n, (handleReconnect (iterReconnect n s)).2.2 = none) := by
  refine ⟨by simp [handleReconnect, hmax], by simp [specState, hc, hmax], ?_⟩
  intro n
  rw [iterReconnect_ceiling_fix s hmax n]
  simp [handleReconnect, hmax]

/-- A service that has exhausted its five reconnection attempts. -/
def exhaustedState : WSState := { initialState with reconnectAttempts := 5 }

/-- Witness for C6 at a service with `reconnectAttempts =
maxReconnectAttempts = 5`: no delay is scheduled now, none is scheduled
after two further failures, and the abstract state is `Abandoned`. -/
theorem c6_ceiling_witness :
    (handleReconnect exhaustedState).2.2 = none
    ∧ specState exhaustedState = ConnState.Abandoned
    ∧ (handleReconnect (iterReconnect 2 exhaustedState)).2.2 = none := by
  refine ⟨?_, (c6_ceiling_abandons exhaustedState rfl (by decide)).2.1, ?_⟩
  · rw [(c6_ceiling_abandons exhaustedState rfl (by decide)).1]
  · exact (c6_ceiling_abandons exhaustedState rfl (by decide)).2.2 2

/-- C7: an inbound `sync` envelope with a `create` / `update` / `delete`
operation leaves the state unchanged and delivers `{operation, data}` to
exactly the handlers registered under the composite key `sync:` ++
collection, in registration order — the invocation list is precisely the
subscriber list of that one key, so handlers registered only under the
bare keys `sync` or the collection name receive nothing. -/
theorem c7_sync_routing (tf : Nat → Bool) (s : WSState) (c op : String) (p : Nat)
    (hop : op = "create" ∨ op = "update" ∨ op = "delete") :
    (handleMessage tf s { type := "sync", error := none, data := MsgData.sync c op p }).1 = s
    ∧ invocations
        (handleMessage tf s { type := "sync", error := none, data := MsgData.sync c op p }).2
      = (getSubscribers s.subscribers ("sync:" ++ c)).map (fun h => (h, Arg.syncEvt op p)) := by
  refine ⟨handleMessage_state_eq _ _ _, ?_⟩
  have hm : (handleMessage tf s { type := "sync", error := none, data := MsgData.sync c op p }).2
      = handleSync tf s.subscribers { type := "sync", error := none, data := MsgData.sync c op p } := by
    simp [handleMessage]
  rw [hm]
  simp only [handleSync, if_pos hop]
  exact invocations_invokeAll tf (Arg.syncEvt op p) _

/-- A registry with handlers under `sync`, `threats` and `sync:threats`. -/
def syncReg : Registry := [("sync", [1]), ("threats", [2]), ("sync:threats", [7, 8])]

/-- The service state carrying `syncReg`. -/
def syncState : WSState := { initialState with subscribers := syncReg }

/-- Witness for C7: with handlers under `sync` (1), `threats` (2) and
`sync:threats` (7 and 8), an update on collection `threats` invokes
exactly 7 and 8, in order, with the `{operation, data}` argument. -/
theorem c7_sync_witness :
    invocations
        (handleMessage (fun _ => false) syncState
          { type := "sync", error := none, data := MsgData.sync "threats" "update" 5 }).2
      = [(7, Arg.syncEvt "update" 5), (8, Arg.syncEvt "update" 5)] :=
  ((c7_sync_routing (fun _ => false) syncState "threats" "update" 5
      (Or.inr (Or.inl rfl))).2).trans (by decide)

/-- C8: the dispatch loop shared by `handleMessage` and `handleSync`
invokes every registered callback with the same argument, in registration
order, for EVERY choice of throwing handlers `tf` — in particular a
handler registered after a throwing one still receives the message, the
throw being caught inside the loop.  Moreover `handleMessage` leaves the
service state unchanged, so an exception during one message's dispatch
cannot affect the dispatch of any subsequent message. -/
theorem c8_dispatch_isolation (tf : Nat → Bool) (a : Arg) (cbs : List Nat)
    (s : WSState) (m : InMsg) :
    invocations (invokeAll tf a cbs) = cbs.map (fun c => (c, a))
    ∧ (handleMessage tf s m).1 = s :=
  ⟨invocations_invokeAll tf a cbs, handleMessage_state_eq tf s m⟩

/-- C9: starting from a fresh service (`reconnectAttempts = 0`,
`maxReconnectAttempts = 5`), the delay scheduled by the Nth consecutive
`handleReconnect` (1 ≤ N ≤ 5) is exactly `min(1000 * 2 ^ N, 30000)` ms,
and any successful open resets `reconnectAttempts` to 0. -/
theorem c9_backoff_formula (N : Nat) (h1 : 1 ≤ N)
    (h2 : N ≤ initialState.maxReconnectAttempts) :
    (handleReconnect (iterReconnect (N - 1) initialState)).2.2
        = some (min (1000 * 2 ^ N) 30000)
    ∧ ∀ (ok : Envelope → Bool) (s : WSState), (onOpen ok s).reconnectAttempts = 0 := by
  constructor
  · have hle : initialState.reconnectAttempts + (N - 1) ≤ initialState.maxReconnectAttempts := by
      have h5 : initialState.maxReconnectAttempts = 5 := rfl
      have h0 : initialState.reconnectAttempts = 0 := rfl
      omega
    rw [iterReconnect_under_ceiling (N - 1) initialState hle]
    have hguard : ¬ (initialState.reconnectAttempts + (N - 1) ≥ initialState.maxReconnectAttempts) := by
      have h5 : initialState.maxReconnectAttempts = 5 := rfl
      have h0 : initialState.reconnectAttempts = 0 := rfl
      omega
    simp only [handleReconnect]
    rw [if_neg (by simpa using hguard)]
    have hN : initialState.reconnectAttempts + (N - 1) + 1 = N := by
      have h0 : initialState.reconnectAttempts = 0 := rfl
      omega
    rw [show ({ initialState with
          reconnectAttempts := initialState.reconnectAttempts + (N - 1) } : WSState).reconnectAttempts + 1
        = N from hN]
  · intro ok s
    exact (processMessageQueue_drain ok
      { s with connected := true, reconnectAttempts := 0 } rfl).2.2

/-- Witness for C9 at N = 3: the third consecutive retry is scheduled
after `min(1000 * 2 ^ 3, 30000) = 8000` ms, and an open on the fresh
service resets the counter. -/
theorem c9_backoff_witness :
    (handleReconnect (iterReconnect 2 initialState)).2.2 = some 8000
    ∧ (onOpen okAll initialState).reconnectAttempts = 0 := by
  refine ⟨((c9_backoff_formula 3 (by decide) (by decide)).1).trans (by decide), ?_⟩
  exact (c9_backoff_formula 3 (by decide) (by decide)).2 okAll initialState

/-- C10: an inbound `sync` envelope whose operation is none of `create`,
`update`, `delete` invokes no subscriber at all: the whole dispatch is a
single `console.warn` of the unknown operation, and the state — in
particular the subscription registry and the outbound queue — is returned
unchanged. -/
theorem c10_unknown_sync_op_dropped (tf : Nat → Bool) (s : WSState) (c op : String) (p : Nat)
    (hop : op ≠ "create" ∧ op ≠ "update" ∧ op ≠ "delete") :
    handleMessage tf s { type := "sync", error := none, data := MsgData.sync c op p }
      = (s, [Effect.logWarn ("Unknown sync operation: " ++ op)]) := by
  simp [handleMessage, handleSync, hop.1, hop.2.1, hop.2.2]

/-- Witness for C10: a `move` operation on collection `threats`, in the
presence of subscribers under `sync`, `threats` and `sync:threats`, only
logs a warning and leaves the state unchanged. -/
theorem c10_unknown_sync_witness :
    handleMessage (fun _ => false) syncState
        { type := "sync", error := none, data := MsgData.sync "threats" "move" 9 }
      = (syncState, [Effect.logWarn "Unknown sync operation: move"]) :=
  (c10_unknown_sync_op_dropped (fun _ => false) syncState "threats" "move" 9
      ⟨by decide, by decide, by decide⟩).trans (by decide)

end WS
